import Mathlib

/-!
Verification of the order-discount, payment-gateway and thumbnail logic of the
saleor excerpt.  Monetary amounts are modelled as exact rationals in currency
units; `quantize_price` performs the half-up rounding to two decimal places
that the source performs with `Decimal.quantize(..., ROUND_HALF_UP)`.
-/

namespace Saleor

/-- Round a rational to the nearest integer, ties away from zero, mirroring
Python's `ROUND_HALF_UP` decimal rounding mode. -/
def round_half_up (q : ℚ) : ℤ :=
  if q < 0 then -(Int.floor (-q + 1/2)) else Int.floor (q + 1/2)

/-- `quantize_price(price, currency)` from `saleor.core.prices`: quantize to the
currency precision (two decimal places throughout the excerpt) rounding half-up. -/
def quantize_price (q : ℚ) : ℚ :=
  (round_half_up (q * 100) : ℚ) / 100

/-- An amount is at currency precision when it is a whole number of cents. -/
def AtPrecision (q : ℚ) : Prop := ∃ n : ℤ, q = (n : ℚ) / 100

instance (q : ℚ) : Decidable (AtPrecision q) :=
  decidable_of_iff (q * 100 = ((q * 100).num : ℚ))
    (by
      constructor
      · intro h
        exact ⟨(q * 100).num, by rw [← h]; field_simp⟩
      · rintro ⟨n, rfl⟩
        norm_num)

theorem floor_intCast_add_half (n : ℤ) : Int.floor ((n : ℚ) + 1/2) = n := by
  rw [add_comm, Int.floor_add_int]
  norm_num [Int.floor_eq_zero_iff]

theorem round_half_up_intCast (n : ℤ) : round_half_up (n : ℚ) = n := by
  unfold round_half_up
  by_cases h : (n : ℚ) < 0
  · rw [if_pos h]
    have : (-(n : ℚ) + 1/2) = ((-n : ℤ) : ℚ) + 1/2 := by push_cast; ring
    rw [this, floor_intCast_add_half]
    ring
  · rw [if_neg h]
    exact floor_intCast_add_half n

theorem round_half_up_mono {a b : ℚ} (h : a ≤ b) :
    round_half_up a ≤ round_half_up b := by
  unfold round_half_up
  by_cases ha : a < 0 <;> by_cases hb : b < 0
  · rw [if_pos ha, if_pos hb]
    have : -b + 1/2 ≤ -a + 1/2 := by linarith
    have := Int.floor_le_floor this
    omega
  · rw [if_pos ha, if_neg hb]
    push_neg at hb
    have h1 : Int.floor (-a + 1/2) ≥ Int.floor ((1:ℚ)/2) := by
      apply Int.floor_le_floor; linarith
    have h2 : Int.floor (b + 1/2) ≥ Int.floor ((1:ℚ)/2) := by
      apply Int.floor_le_floor; linarith
    have h3 : Int.floor ((1:ℚ)/2) = 0 := by norm_num [Int.floor_eq_zero_iff]
    rw [h3] at h1 h2
    omega
  · exact absurd (lt_of_le_of_lt h hb) ha
  · rw [if_neg ha, if_neg hb]
    apply Int.floor_le_floor; linarith

theorem quantize_price_mono {a b : ℚ} (h : a ≤ b) :
    quantize_price a ≤ quantize_price b := by
  unfold quantize_price
  have := round_half_up_mono (mul_le_mul_of_nonneg_right h (by norm_num : (0:ℚ) ≤ 100))
  have hcast : ((round_half_up (a * 100) : ℚ)) ≤ ((round_half_up (b * 100) : ℚ)) := by
    exact_mod_cast this
  linarith

theorem quantize_price_of_atPrecision {q : ℚ} (h : AtPrecision q) :
    quantize_price q = q := by
  obtain ⟨n, rfl⟩ := h
  unfold quantize_price
  have : ((n : ℚ) / 100) * 100 = (n : ℚ) := by field_simp
  rw [this, round_half_up_intCast]

theorem quantize_price_nonneg {q : ℚ} (h : 0 ≤ q) : 0 ≤ quantize_price q := by
  have h0 : quantize_price 0 = 0 := by
    have : AtPrecision 0 := ⟨0, by norm_num⟩
    simpa using quantize_price_of_atPrecision this
  have := quantize_price_mono h
  linarith

/-!
Order line discount distribution.

`apply_subtotal_discount_to_order_lines` is not part of the excerpt (only its
tests are), so its allocation rule is modelled from the spec.
-/

/-- Modelled from the spec: the per-line discounts produced by
`apply_subtotal_discount_to_order_lines` (whose implementation in
`saleor/order/base_calculations.py` is missing from the excerpt).  The subtotal
discount is distributed proportionally to each line's share of the undiscounted
subtotal, quantized half-up to currency precision and capped at the line's own
undiscounted total; the last line absorbs the remainder, again capped at its
own undiscounted total.  `rem` is the still-unallocated discount. -/
def subtotal_line_discounts (subtotal discount : ℚ) :
    List ℚ → ℚ → List ℚ
  | [], _ => []
  | [t], rem => [min rem t]
  | t :: t2 :: ts, rem =>
      let d := min (quantize_price (t / subtotal * discount)) t
      d :: subtotal_line_discounts subtotal discount (t2 :: ts) (rem - d)

/-- Modelled from the spec: the per-line discounted totals after
`apply_subtotal_discount_to_order_lines` runs on lines with the given
undiscounted totals. -/
def apply_subtotal_discount_to_order_lines
    (totals : List ℚ) (subtotal discount : ℚ) : List ℚ :=
  List.zipWith (fun t d => t - d) totals
    (subtotal_line_discounts subtotal discount totals discount)

theorem subtotal_line_discounts_le_totals (subtotal discount : ℚ) :
    ∀ (totals : List ℚ) (rem : ℚ),
      List.Forall₂ (· ≤ ·) (subtotal_line_discounts subtotal discount totals rem) totals
  | [], _ => List.Forall₂.nil
  | [t], rem => by
      unfold subtotal_line_discounts
      exact List.Forall₂.cons (min_le_right _ _) List.Forall₂.nil
  | t :: t2 :: ts, rem => by
      unfold subtotal_line_discounts
      exact List.Forall₂.cons (min_le_right _ _)
        (subtotal_line_discounts_le_totals subtotal discount (t2 :: ts) _)

theorem subtotal_line_discounts_sum_le (subtotal discount : ℚ) :
    ∀ (t : ℚ) (ts : List ℚ) (rem : ℚ),
      (subtotal_line_discounts subtotal discount (t :: ts) rem).sum ≤ rem
  | t, [], rem => by
      simp only [subtotal_line_discounts, List.sum_cons, List.sum_nil, add_zero]
      exact min_le_left _ _
  | t, t2 :: ts, rem => by
      simp only [subtotal_line_discounts, List.sum_cons]
      have ih := subtotal_line_discounts_sum_le subtotal discount t2 ts
        (rem - min (quantize_price (t / subtotal * discount)) t)
      linarith

theorem subtotal_line_discounts_length (subtotal discount : ℚ) :
    ∀ (totals : List ℚ) (rem : ℚ),
      (subtotal_line_discounts subtotal discount totals rem).length = totals.length :=
  fun totals rem =>
    List.Forall₂.length_eq (subtotal_line_discounts_le_totals subtotal discount totals rem)

theorem subtotal_line_discounts_sum_eq (subtotal discount : ℚ) :
    ∀ (t : ℚ) (ts : List ℚ) (rem : ℚ),
      rem - (subtotal_line_discounts subtotal discount (t :: ts) rem).dropLast.sum ≤
        (t :: ts).getLast (by simp) →
      (subtotal_line_discounts subtotal discount (t :: ts) rem).sum = rem
  | t, [], rem => by
      intro h
      simp only [subtotal_line_discounts, List.dropLast_single, List.sum_nil,
        List.getLast_singleton, sub_zero] at h
      simp only [subtotal_line_discounts, List.sum_cons, List.sum_nil, add_zero]
      exact min_eq_left h
  | t, t2 :: ts, rem => by
      intro h
      have hne : subtotal_line_discounts subtotal discount (t2 :: ts)
          (rem - min (quantize_price (t / subtotal * discount)) t) ≠ [] := by
        intro hc
        have := subtotal_line_discounts_length subtotal discount (t2 :: ts)
          (rem - min (quantize_price (t / subtotal * discount)) t)
        rw [hc] at this
        simp at this
      simp only [subtotal_line_discounts, List.sum_cons] at h ⊢
      rw [List.dropLast_cons_of_ne_nil hne, List.sum_cons,
        List.getLast_cons (by simp : t2 :: ts ≠ [])] at h
      have ih := subtotal_line_discounts_sum_eq subtotal discount t2 ts
        (rem - min (quantize_price (t / subtotal * discount)) t)
        (by linarith)
      rw [ih]
      ring

theorem sum_zipWith_sub :
    ∀ (as bs : List ℚ), as.length = bs.length →
      (List.zipWith (fun a b => a - b) as bs).sum = as.sum - bs.sum
  | [], [], _ => by simp
  | [], b :: bs, h => by simp at h
  | a :: as, [], h => by simp at h
  | a :: as, b :: bs, h => by
      simp only [List.zipWith_cons_cons, List.sum_cons]
      rw [sum_zipWith_sub as bs (by simpa using h)]
      ring

/-!
Order-level discounts.

`apply_order_discounts` from `saleor/order/base_calculations.py` is not part of
the excerpt (only its tests are); the definitions below are modelled from the
spec's rules for it.
-/

/-- Value type of an order discount (`DiscountValueType` in the source). -/
inductive DiscountValueType where
  | fixed
  | percentage
deriving DecidableEq, Repr

/-- Kind of an order discount (`DiscountType` in the source). -/
inductive DiscountType where
  | voucher
  | manual
deriving DecidableEq, Repr

/-- Scope of a voucher (entire order vs shipping). -/
inductive VoucherScope where
  | entireOrder
  | shipping
deriving DecidableEq, Repr

/-- An `OrderDiscount` row as far as the calculation reads it.  The
`voucherScope` field is only meaningful for voucher discounts. -/
structure OrderDiscountSpec where
  dtype : DiscountType
  valueType : DiscountValueType
  value : ℚ
  voucherScope : VoucherScope
deriving DecidableEq, Repr

def OrderDiscountSpec.isVoucher (d : OrderDiscountSpec) : Bool :=
  match d.dtype with
  | .voucher => true
  | .manual => false

/-- Modelled from the spec: `apply_discount_to_value` returns the discounted
base.  Percentage values are applied to the pre-discount base and quantized to
currency precision; fixed values are capped at the base so a discount can
never drive a total negative. -/
def apply_discount_to_value (value : ℚ) (valueType : DiscountValueType) (base : ℚ) : ℚ :=
  match valueType with
  | .fixed => max (base - value) 0
  | .percentage => max (base - quantize_price (base * value / 100)) 0

/-- Modelled from the spec: how `apply_order_discounts` processes one discount.
Entire-order vouchers reduce the subtotal only; shipping vouchers reduce the
shipping price only; manual discounts apply to both, proportionally to their
share of the combined total at the time of calculation
(share = component / (subtotal + shipping)), the shipping component being the
rest of the realized amount.  Returns the new (subtotal, shipping) pair and the
realized `amount_value`. -/
def apply_single_order_discount (subtotal shipping : ℚ) (d : OrderDiscountSpec) :
    (ℚ × ℚ) × ℚ :=
  match d.dtype with
  | .voucher =>
    match d.voucherScope with
    | .entireOrder =>
      let s2 := apply_discount_to_value d.value d.valueType subtotal
      ((s2, shipping), subtotal - s2)
    | .shipping =>
      let sh2 := apply_discount_to_value d.value d.valueType shipping
      ((subtotal, sh2), shipping - sh2)
  | .manual =>
    let total := subtotal + shipping
    let discountedTotal := apply_discount_to_value d.value d.valueType total
    let amount := total - discountedTotal
    let subtotalDiscount := subtotal / total * amount
    ((subtotal - subtotalDiscount, shipping - (amount - subtotalDiscount)), amount)

/-- Modelled from the spec: vouchers are applied first, manual discounts
second, regardless of creation order (stably within each group). -/
def sort_order_discounts (ds : List OrderDiscountSpec) : List OrderDiscountSpec :=
  ds.filter (fun d => d.isVoucher) ++ ds.filter (fun d => !d.isVoucher)

/-- One fold step of `apply_order_discounts`: update the bases and record the
realized amount. -/
def order_discount_step (acc : (ℚ × ℚ) × List ℚ) (d : OrderDiscountSpec) :
    (ℚ × ℚ) × List ℚ :=
  let r := apply_single_order_discount acc.1.1 acc.1.2 d
  (r.1, acc.2 ++ [r.2])

/-- Modelled from the spec: `apply_order_discounts` folds the sorted discounts
over the undiscounted (subtotal, shipping) pair, recording each discount's
realized `amount_value`.  Returns the discounted bases and the recorded
amounts (in processing order). -/
def apply_order_discounts (subtotal shipping : ℚ) (ds : List OrderDiscountSpec) :
    (ℚ × ℚ) × List ℚ :=
  (sort_order_discounts ds).foldl order_discount_step ((subtotal, shipping), [])

/-- The order price fields written back by the calculation. -/
structure OrderPricing where
  discountedSubtotal : ℚ
  shippingPriceNet : ℚ
  shippingPriceGross : ℚ
  totalNet : ℚ
  totalGross : ℚ
  undiscountedTotalNet : ℚ
  undiscountedTotalGross : ℚ
  amountValues : List ℚ
deriving DecidableEq, Repr

/-- Modelled from the spec: the order fields after `apply_order_discounts`
runs on an order with the given undiscounted subtotal and shipping price.
Base prices in this path carry no taxes, so net equals gross. -/
def recalculate_order_prices (subtotal shipping : ℚ) (ds : List OrderDiscountSpec) :
    OrderPricing :=
  let r := apply_order_discounts subtotal shipping ds
  { discountedSubtotal := r.1.1
    shippingPriceNet := r.1.2
    shippingPriceGross := r.1.2
    totalNet := r.1.1 + r.1.2
    totalGross := r.1.1 + r.1.2
    undiscountedTotalNet := subtotal + shipping
    undiscountedTotalGross := subtotal + shipping
    amountValues := r.2 }

theorem apply_discount_to_value_nonneg (value : ℚ) (vt : DiscountValueType) (base : ℚ) :
    0 ≤ apply_discount_to_value value vt base := by
  cases vt <;> exact le_max_right _ _

theorem apply_discount_to_value_le {value base : ℚ} (vt : DiscountValueType)
    (hv : 0 ≤ value) (hb : 0 ≤ base) :
    apply_discount_to_value value vt base ≤ base := by
  cases vt with
  | fixed =>
    simp only [apply_discount_to_value]
    rw [max_le_iff]
    constructor <;> linarith
  | percentage =>
    simp only [apply_discount_to_value]
    rw [max_le_iff]
    refine ⟨?_, hb⟩
    have : 0 ≤ quantize_price (base * value / 100) :=
      quantize_price_nonneg (by positivity)
    linarith

/-- One discount step keeps both bases nonnegative. -/
theorem apply_single_order_discount_nonneg (subtotal shipping : ℚ)
    (d : OrderDiscountSpec) (hs : 0 ≤ subtotal) (hsh : 0 ≤ shipping) :
    0 ≤ (apply_single_order_discount subtotal shipping d).1.1 ∧
      0 ≤ (apply_single_order_discount subtotal shipping d).1.2 := by
  rcases d with ⟨dt, vt, v, sc⟩
  cases dt with
  | voucher =>
    cases sc <;>
      simp only [apply_single_order_discount] <;>
      exact ⟨by first | exact apply_discount_to_value_nonneg _ _ _ | exact hs,
             by first | exact apply_discount_to_value_nonneg _ _ _ | exact hsh⟩
  | manual =>
    simp only [apply_single_order_discount]
    by_cases htot : subtotal + shipping = 0
    · have hs0 : subtotal = 0 := by linarith
      have hsh0 : shipping = 0 := by linarith
      subst hs0 hsh0
      have hnn := apply_discount_to_value_nonneg v vt (0:ℚ)
      constructor
      · norm_num
      · norm_num
        linarith
    · have htotpos : 0 < subtotal + shipping := lt_of_le_of_ne (by linarith) (Ne.symm htot)
      set dtv := apply_discount_to_value v vt (subtotal + shipping) with hdtv
      have hdtv0 : 0 ≤ dtv := apply_discount_to_value_nonneg _ _ _
      have h1 : subtotal - subtotal / (subtotal + shipping) *
          ((subtotal + shipping) - dtv) = subtotal * dtv / (subtotal + shipping) := by
        field_simp
        ring
      have h2 : shipping - (((subtotal + shipping) - dtv) -
          subtotal / (subtotal + shipping) * ((subtotal + shipping) - dtv)) =
          shipping * dtv / (subtotal + shipping) := by
        field_simp
        ring
      constructor
      · rw [h1]; positivity
      · rw [h2]; positivity

theorem discounts_foldl_nonneg :
    ∀ (l : List OrderDiscountSpec) (p : ℚ × ℚ) (amts : List ℚ),
      0 ≤ p.1 → 0 ≤ p.2 →
      0 ≤ (l.foldl order_discount_step (p, amts)).1.1 ∧
        0 ≤ (l.foldl order_discount_step (p, amts)).1.2
  | [], p, amts, h1, h2 => ⟨h1, h2⟩
  | d :: l, p, amts, h1, h2 => by
      have hstep := apply_single_order_discount_nonneg p.1 p.2 d h1 h2
      simpa [List.foldl_cons, order_discount_step] using
        discounts_foldl_nonneg l (apply_single_order_discount p.1 p.2 d).1
          (amts ++ [(apply_single_order_discount p.1 p.2 d).2]) hstep.1 hstep.2

/-- The base a discount applies to: subtotal for entire-order vouchers,
shipping price for shipping vouchers, their sum for manual discounts. -/
def discount_base (subtotal shipping : ℚ) (d : OrderDiscountSpec) : ℚ :=
  match d.dtype with
  | .voucher =>
    match d.voucherScope with
    | .entireOrder => subtotal
    | .shipping => shipping
  | .manual => subtotal + shipping

/-- The realized amount of any single discount never exceeds the base it
applies to. -/
theorem apply_single_order_discount_amount_le_base (subtotal shipping : ℚ)
    (d : OrderDiscountSpec) :
    (apply_single_order_discount subtotal shipping d).2 ≤
      discount_base subtotal shipping d := by
  rcases d with ⟨dt, vt, v, sc⟩
  cases dt with
  | voucher =>
    cases sc with
    | entireOrder =>
      simp only [apply_single_order_discount, discount_base]
      have h := apply_discount_to_value_nonneg v vt subtotal
      linarith
    | shipping =>
      simp only [apply_single_order_discount, discount_base]
      have h := apply_discount_to_value_nonneg v vt shipping
      linarith
  | manual =>
    simp only [apply_single_order_discount, discount_base]
    have h := apply_discount_to_value_nonneg v vt (subtotal + shipping)
    linarith

/-- The subtotal after a given discount has been processed (used to phrase the
post-voucher bases). -/
def voucher_discounted_subtotal (s sh : ℚ) (d : OrderDiscountSpec) : ℚ :=
  (apply_single_order_discount s sh d).1.1

/-- The shipping price after a given discount has been processed. -/
def voucher_discounted_shipping (s sh : ℚ) (d : OrderDiscountSpec) : ℚ :=
  (apply_single_order_discount s sh d).1.2

/-- C1 (amended): for any nonempty set of order lines and any subtotal
discount `discount` with `0 ≤ discount ≤ subtotal`, each line's allocated
discount never exceeds that line's own undiscounted total, the sum of the
per-line discounted totals is at least `subtotal - discount`, and it equals
`subtotal - discount` exactly whenever the rounding remainder left for the
last line does not exceed that line's own undiscounted total. -/
theorem apply_subtotal_discount_to_order_lines_spec
    (t : ℚ) (ts : List ℚ) (discount : ℚ)
    (hD0 : 0 ≤ discount) (hDS : discount ≤ (t :: ts).sum) :
    List.Forall₂ (· ≤ ·)
        (subtotal_line_discounts ((t :: ts).sum) discount (t :: ts) discount)
        (t :: ts) ∧
      (t :: ts).sum - discount ≤
        (apply_subtotal_discount_to_order_lines (t :: ts) ((t :: ts).sum) discount).sum ∧
      (discount -
            (subtotal_line_discounts ((t :: ts).sum) discount
              (t :: ts) discount).dropLast.sum ≤
          (t :: ts).getLast (by simp) →
        (apply_subtotal_discount_to_order_lines (t :: ts) ((t :: ts).sum) discount).sum =
          (t :: ts).sum - discount) := by
  have hlen := subtotal_line_discounts_length ((t :: ts).sum) discount (t :: ts) discount
  have hzip := sum_zipWith_sub (t :: ts)
    (subtotal_line_discounts ((t :: ts).sum) discount (t :: ts) discount) hlen.symm
  refine ⟨subtotal_line_discounts_le_totals _ _ _ _, ?_, ?_⟩
  · have hle := subtotal_line_discounts_sum_le ((t :: ts).sum) discount t ts discount
    rw [apply_subtotal_discount_to_order_lines, hzip]
    linarith
  · intro hcond
    rw [apply_subtotal_discount_to_order_lines, hzip,
      subtotal_line_discounts_sum_eq ((t :: ts).sum) discount t ts discount hcond]

/-- C1 witness: two lines with totals 60 and 40 and a subtotal discount of 30
distribute exactly: the discounted line totals sum to 70 = 100 - 30. -/
theorem apply_subtotal_discount_to_order_lines_spec_witness :
    (0:ℚ) ≤ 30 ∧ (30:ℚ) ≤ ([60, 40] : List ℚ).sum ∧
      (apply_subtotal_discount_to_order_lines [60, 40]
          (([60, 40] : List ℚ).sum) 30).sum = ([60, 40] : List ℚ).sum - 30 := by
  refine ⟨by norm_num, by norm_num, ?_⟩
  exact (apply_subtotal_discount_to_order_lines_spec 60 [40] 30 (by norm_num)
      (by norm_num)).2.2
    (by norm_num [subtotal_line_discounts, quantize_price, round_half_up, min_def])

/-- C1 counterexample: with line totals 0.33, 0.33, 0.33, 0.01 (subtotal 1.00)
and a subtotal discount of 0.98 ≤ 1.00, the three proportional shares each
quantize down to 0.32, the remainder 0.02 left for the last line is capped at
that line's total 0.01, and the per-line discounted totals sum to 0.03, not
1.00 - 0.98 = 0.02: the claimed exact equality at currency precision fails. -/
theorem subtotal_discount_exact_sum_counterexample :
    (0:ℚ) ≤ 98/100 ∧
      (98/100 : ℚ) ≤ ([33/100, 33/100, 33/100, 1/100] : List ℚ).sum ∧
      (apply_subtotal_discount_to_order_lines [33/100, 33/100, 33/100, 1/100]
          (([33/100, 33/100, 33/100, 1/100] : List ℚ).sum) (98/100)).sum ≠
        ([33/100, 33/100, 33/100, 1/100] : List ℚ).sum - 98/100 := by
  refine ⟨by norm_num, by norm_num, ?_⟩
  norm_num [apply_subtotal_discount_to_order_lines, subtotal_line_discounts,
    quantize_price, round_half_up, min_def]

/-- C5: a voucher of "entire order" scope reduces only the subtotal and one of
"shipping" scope reduces only the shipping price; in both cases the
undiscounted totals are preserved and the recomputed totals are the sum of the
discounted components. -/
theorem voucher_scope_frame (s sh v : ℚ) (vt : DiscountValueType)
    (scope : VoucherScope) :
    (scope = VoucherScope.entireOrder →
        (recalculate_order_prices s sh [⟨.voucher, vt, v, scope⟩]).shippingPriceNet = sh ∧
        (recalculate_order_prices s sh [⟨.voucher, vt, v, scope⟩]).shippingPriceGross = sh ∧
        (recalculate_order_prices s sh [⟨.voucher, vt, v, scope⟩]).discountedSubtotal =
          apply_discount_to_value v vt s) ∧
      (scope = VoucherScope.shipping →
        (recalculate_order_prices s sh [⟨.voucher, vt, v, scope⟩]).discountedSubtotal = s ∧
        (recalculate_order_prices s sh [⟨.voucher, vt, v, scope⟩]).shippingPriceNet =
          apply_discount_to_value v vt sh ∧
        (recalculate_order_prices s sh [⟨.voucher, vt, v, scope⟩]).shippingPriceGross =
          apply_discount_to_value v vt sh) ∧
      (recalculate_order_prices s sh [⟨.voucher, vt, v, scope⟩]).undiscountedTotalNet =
        s + sh ∧
      (recalculate_order_prices s sh [⟨.voucher, vt, v, scope⟩]).undiscountedTotalGross =
        s + sh ∧
      (recalculate_order_prices s sh [⟨.voucher, vt, v, scope⟩]).totalNet =
        (recalculate_order_prices s sh [⟨.voucher, vt, v, scope⟩]).discountedSubtotal +
          (recalculate_order_prices s sh [⟨.voucher, vt, v, scope⟩]).shippingPriceNet ∧
      (recalculate_order_prices s sh [⟨.voucher, vt, v, scope⟩]).totalGross =
        (recalculate_order_prices s sh [⟨.voucher, vt, v, scope⟩]).discountedSubtotal +
          (recalculate_order_prices s sh [⟨.voucher, vt, v, scope⟩]).shippingPriceNet := by
  cases scope <;>
    simp [recalculate_order_prices, apply_order_discounts, sort_order_discounts,
      order_discount_step, apply_single_order_discount, OrderDiscountSpec.isVoucher]

/-- C5 witness: subtotal 100, shipping 20, fixed entire-order voucher of 10
yields discounted subtotal 90, unchanged shipping 20, and preserved
undiscounted total 120. -/
theorem voucher_scope_frame_witness :
    (recalculate_order_prices 100 20
        [⟨.voucher, .fixed, 10, .entireOrder⟩]).discountedSubtotal = 90 ∧
      (recalculate_order_prices 100 20
        [⟨.voucher, .fixed, 10, .entireOrder⟩]).shippingPriceNet = 20 ∧
      (recalculate_order_prices 100 20
        [⟨.voucher, .fixed, 10, .entireOrder⟩]).undiscountedTotalNet = 120 := by
  have h := voucher_scope_frame 100 20 10 .fixed .entireOrder
  refine ⟨(h.1 rfl).2.2.trans ?_, (h.1 rfl).1, h.2.2.1.trans (by norm_num)⟩
  norm_num [apply_discount_to_value]

/-- C3: fixed-value discounts are capped at the base they apply to: the bases
stay nonnegative through any run of `apply_order_discounts` over fixed-value
discounts, any single realized discount amount is at most its base, a fixed
entire-order voucher exceeding the subtotal zeroes the subtotal and records
the subtotal as `amount_value`, and a manual fixed discount exceeding the
undiscounted total zeroes both components and records the undiscounted total
as `amount_value`. -/
theorem apply_order_discounts_fixed_caps :
    (∀ (s sh : ℚ) (ds : List OrderDiscountSpec), 0 ≤ s → 0 ≤ sh →
        (∀ d ∈ ds, d.valueType = DiscountValueType.fixed) →
        0 ≤ (apply_order_discounts s sh ds).1.1 ∧
          0 ≤ (apply_order_discounts s sh ds).1.2 ∧
          0 ≤ (apply_order_discounts s sh ds).1.1 + (apply_order_discounts s sh ds).1.2) ∧
      (∀ (s sh : ℚ) (d : OrderDiscountSpec),
        (apply_single_order_discount s sh d).2 ≤ discount_base s sh d) ∧
      (∀ s sh v : ℚ, 0 ≤ s → s ≤ v →
        apply_order_discounts s sh [⟨.voucher, .fixed, v, .entireOrder⟩] =
          ((0, sh), [s])) ∧
      (∀ (s sh M : ℚ) (sc : VoucherScope), 0 ≤ s → 0 ≤ sh → s + sh ≤ M →
        apply_order_discounts s sh [⟨.manual, .fixed, M, sc⟩] =
          ((0, 0), [s + sh])) := by
  refine ⟨?_, ?_, ?_, ?_⟩
  · intro s sh ds hs hsh _
    have h := discounts_foldl_nonneg (sort_order_discounts ds) (s, sh) [] hs hsh
    exact ⟨h.1, h.2, add_nonneg h.1 h.2⟩
  · intro s sh d
    exact apply_single_order_discount_amount_le_base s sh d
  · intro s sh v hs hv
    have hmax : max (s - v) 0 = 0 := max_eq_right (by linarith)
    simp [apply_order_discounts, sort_order_discounts, order_discount_step,
      apply_single_order_discount, apply_discount_to_value,
      OrderDiscountSpec.isVoucher, hmax]
  · intro s sh M sc hs hsh hM
    have hmax : max (s + sh - M) 0 = 0 := max_eq_right (by linarith)
    have hsort : sort_order_discounts [⟨.manual, .fixed, M, sc⟩] =
        [⟨.manual, .fixed, M, sc⟩] := by
      simp [sort_order_discounts, OrderDiscountSpec.isVoucher]
    rw [apply_order_discounts, hsort]
    simp only [List.foldl_cons, List.foldl_nil, order_discount_step,
      apply_single_order_discount, apply_discount_to_value]
    rw [hmax]
    by_cases htot : s + sh = 0
    · have hs0 : s = 0 := by linarith
      have hsh0 : sh = 0 := by linarith
      subst hs0 hsh0
      norm_num
    · have hkey : s / (s + sh) * (s + sh) = s := by field_simp
      simp only [sub_zero, Prod.mk.injEq, List.cons.injEq, hkey]
      exact ⟨⟨by ring, by ring⟩, by norm_num⟩

/-- C3 witness: subtotal 30, shipping 20 with a fixed entire-order voucher of
50 > 30 yields subtotal 0, amount 30; and a manual fixed discount of 160 >
50 zeroes both components recording 50. -/
theorem apply_order_discounts_fixed_caps_witness :
    apply_order_discounts 30 20 [⟨.voucher, .fixed, 50, .entireOrder⟩] =
        ((0, 20), [30]) ∧
      apply_order_discounts 30 20 [⟨.manual, .fixed, 160, .entireOrder⟩] =
        (((0 : ℚ), (0 : ℚ)), [(50 : ℚ)]) := by
  have h := apply_order_discounts_fixed_caps
  constructor
  · exact h.2.2.1 30 20 50 (by norm_num) (by norm_num)
  · exact (h.2.2.2 30 20 160 .entireOrder (by norm_num) (by norm_num)
      (by norm_num)).trans (by norm_num)

/-- C2: a manual fixed discount `M` is processed after voucher discounts
regardless of creation order; it is split between the voucher-discounted
subtotal and shipping bases in proportion to their shares of the
voucher-discounted total, the shipping component being `M` minus the subtotal
component, so the two components sum to exactly `M` and each equals its
proportional share. -/
theorem manual_fixed_after_voucher_split
    (s sh v M : ℚ) (vt : DiscountValueType) (vsc msc : VoucherScope)
    (hM0 : 0 ≤ M)
    (hM : M ≤ voucher_discounted_subtotal s sh ⟨.voucher, vt, v, vsc⟩ +
        voucher_discounted_shipping s sh ⟨.voucher, vt, v, vsc⟩) :
    apply_order_discounts s sh
        [⟨.manual, .fixed, M, msc⟩, ⟨.voucher, vt, v, vsc⟩] =
      apply_order_discounts s sh
        [⟨.voucher, vt, v, vsc⟩, ⟨.manual, .fixed, M, msc⟩] ∧
    apply_order_discounts s sh
        [⟨.voucher, vt, v, vsc⟩, ⟨.manual, .fixed, M, msc⟩] =
      ((voucher_discounted_subtotal s sh ⟨.voucher, vt, v, vsc⟩ -
          voucher_discounted_subtotal s sh ⟨.voucher, vt, v, vsc⟩ /
            (voucher_discounted_subtotal s sh ⟨.voucher, vt, v, vsc⟩ +
              voucher_discounted_shipping s sh ⟨.voucher, vt, v, vsc⟩) * M,
        voucher_discounted_shipping s sh ⟨.voucher, vt, v, vsc⟩ -
          (M - voucher_discounted_subtotal s sh ⟨.voucher, vt, v, vsc⟩ /
            (voucher_discounted_subtotal s sh ⟨.voucher, vt, v, vsc⟩ +
              voucher_discounted_shipping s sh ⟨.voucher, vt, v, vsc⟩) * M)),
        [(apply_single_order_discount s sh ⟨.voucher, vt, v, vsc⟩).2, M]) ∧
    voucher_discounted_subtotal s sh ⟨.voucher, vt, v, vsc⟩ /
        (voucher_discounted_subtotal s sh ⟨.voucher, vt, v, vsc⟩ +
          voucher_discounted_shipping s sh ⟨.voucher, vt, v, vsc⟩) * M +
      (M - voucher_discounted_subtotal s sh ⟨.voucher, vt, v, vsc⟩ /
        (voucher_discounted_subtotal s sh ⟨.voucher, vt, v, vsc⟩ +
          voucher_discounted_shipping s sh ⟨.voucher, vt, v, vsc⟩) * M) = M ∧
    M - voucher_discounted_subtotal s sh ⟨.voucher, vt, v, vsc⟩ /
        (voucher_discounted_subtotal s sh ⟨.voucher, vt, v, vsc⟩ +
          voucher_discounted_shipping s sh ⟨.voucher, vt, v, vsc⟩) * M =
      voucher_discounted_shipping s sh ⟨.voucher, vt, v, vsc⟩ /
        (voucher_discounted_subtotal s sh ⟨.voucher, vt, v, vsc⟩ +
          voucher_discounted_shipping s sh ⟨.voucher, vt, v, vsc⟩) * M := by
  set s1 := voucher_discounted_subtotal s sh ⟨.voucher, vt, v, vsc⟩ with hs1
  set sh1 := voucher_discounted_shipping s sh ⟨.voucher, vt, v, vsc⟩ with hsh1
  have hsort1 : sort_order_discounts
      [⟨.manual, .fixed, M, msc⟩, ⟨.voucher, vt, v, vsc⟩] =
      [⟨.voucher, vt, v, vsc⟩, ⟨.manual, .fixed, M, msc⟩] := by
    simp [sort_order_discounts, OrderDiscountSpec.isVoucher]
  have hsort2 : sort_order_discounts
      [⟨.voucher, vt, v, vsc⟩, ⟨.manual, .fixed, M, msc⟩] =
      [⟨.voucher, vt, v, vsc⟩, ⟨.manual, .fixed, M, msc⟩] := by
    simp [sort_order_discounts, OrderDiscountSpec.isVoucher]
  have hmax : max (s1 + sh1 - M) 0 = s1 + sh1 - M := max_eq_left (by linarith)
  refine ⟨?_, ?_, by ring, ?_⟩
  · rw [apply_order_discounts, apply_order_discounts, hsort1, hsort2]
  · rw [apply_order_discounts, hsort2]
    simp only [List.foldl_cons, List.foldl_nil, order_discount_step]
    rw [show (apply_single_order_discount s sh ⟨.voucher, vt, v, vsc⟩).1 =
        (s1, sh1) from rfl]
    simp only [apply_single_order_discount, apply_discount_to_value]
    rw [hmax]
    norm_num
  · by_cases htot : s1 + sh1 = 0
    · have hM00 : M = 0 := le_antisymm (by linarith) hM0
      subst hM00
      simp
    · field_simp
      ring

/-- C2 witness: subtotal 100, shipping 20, fixed entire-order voucher 10, then
a manual fixed discount 8 split over the post-voucher bases (90, 20): the two
components sum to exactly 8 and creation order does not matter. -/
theorem manual_fixed_after_voucher_split_witness :
    (0:ℚ) ≤ 8 ∧
      (8:ℚ) ≤ voucher_discounted_subtotal 100 20 ⟨.voucher, .fixed, 10, .entireOrder⟩ +
        voucher_discounted_shipping 100 20 ⟨.voucher, .fixed, 10, .entireOrder⟩ ∧
      apply_order_discounts 100 20
          [⟨.manual, .fixed, 8, .entireOrder⟩, ⟨.voucher, .fixed, 10, .entireOrder⟩] =
        apply_order_discounts 100 20
          [⟨.voucher, .fixed, 10, .entireOrder⟩, ⟨.manual, .fixed, 8, .entireOrder⟩] ∧
      voucher_discounted_subtotal 100 20 ⟨.voucher, .fixed, 10, .entireOrder⟩ /
          (voucher_discounted_subtotal 100 20 ⟨.voucher, .fixed, 10, .entireOrder⟩ +
            voucher_discounted_shipping 100 20 ⟨.voucher, .fixed, 10, .entireOrder⟩) * 8 +
        (8 - voucher_discounted_subtotal 100 20 ⟨.voucher, .fixed, 10, .entireOrder⟩ /
          (voucher_discounted_subtotal 100 20 ⟨.voucher, .fixed, 10, .entireOrder⟩ +
            voucher_discounted_shipping 100 20 ⟨.voucher, .fixed, 10, .entireOrder⟩) * 8) =
        8 := by
  have hbase : voucher_discounted_subtotal 100 20
        ⟨.voucher, .fixed, 10, .entireOrder⟩ +
      voucher_discounted_shipping 100 20 ⟨.voucher, .fixed, 10, .entireOrder⟩ =
      110 := by
    norm_num [voucher_discounted_subtotal, voucher_discounted_shipping,
      apply_single_order_discount, apply_discount_to_value]
  have h := manual_fixed_after_voucher_split 100 20 10 8 .fixed .entireOrder
    .entireOrder (by norm_num) (by rw [hbase]; norm_num)
  exact ⟨by norm_num, by rw [hbase]; norm_num, h.1, h.2.2.1⟩

/-!
Transaction initialize (asynchronous transaction-session path).

The `transactionInitialize` mutation resolver is not part of the excerpt (only
its tests are), so its idempotency and limit behaviour is modelled from the
spec.
-/

/-- Kind of a transaction event: the request recorded before the app is
invoked, or the response recorded after. -/
inductive EventKind where
  | request
  | response
deriving DecidableEq, Repr

/-- A `TransactionEvent` row as far as the idempotency contract reads it. -/
structure TransactionEventRec where
  kind : EventKind
  idempotencyKey : String
  amountValue : ℚ
deriving DecidableEq, Repr

/-- A `TransactionItem` row attached to a checkout or order. -/
structure TransactionRec where
  idempotencyKey : String
  amountValue : ℚ
  result : String
  events : List TransactionEventRec
deriving DecidableEq, Repr

/-- Outcome surfaced by the mutation. -/
inductive InitializeOutcome where
  | success (result : String)
  | invalidError (field message : String)
  | uniqueError (field : String)
deriving DecidableEq, Repr

/-- Result of one mutation call: the outcome, the stored transactions for the
source object afterwards, and whether the external app was invoked. -/
structure InitializeResult where
  outcome : InitializeOutcome
  transactions : List TransactionRec
  appInvoked : Bool
deriving DecidableEq, Repr

/-- Modelled from the spec: the `transactionInitialize` mutation for a source
object (checkout or order) whose stored transactions are `txns`.  A source
object at the transaction-items limit is rejected before any other
processing; an empty idempotency key is invalid; a repeated non-empty key
returns the previously recorded result when the amount matches and a
uniqueness conflict otherwise, in both cases without touching the store or
the app; a novel non-empty key creates exactly one transaction carrying the
key with one request and one response event, invoking the app once.
`limit` is the configured `TRANSACTION_ITEMS_LIMIT` and `label` the source
object label used in the limit error message ("Checkout" or "Order"). -/
def transaction_initialize_mutation (limit : ℕ) (label : String)
    (txns : List TransactionRec) (key : String) (amount : ℚ)
    (appResult : String) : InitializeResult :=
  if limit ≤ txns.length then
    { outcome := .invalidError "id"
        (label ++ " transactions limit of " ++ toString limit ++ " reached.")
      transactions := txns
      appInvoked := false }
  else if key = "" then
    { outcome := .invalidError "idempotencyKey"
        "The idempotency key cannot be empty."
      transactions := txns
      appInvoked := false }
  else
    match txns.find? (fun t => t.idempotencyKey == key) with
    | some t =>
      if t.amountValue = amount then
        { outcome := .success t.result, transactions := txns, appInvoked := false }
      else
        { outcome := .uniqueError "idempotencyKey", transactions := txns
          appInvoked := false }
    | none =>
      { outcome := .success appResult
        transactions := txns ++
          [{ idempotencyKey := key, amountValue := amount, result := appResult
             events := [⟨.request, key, amount⟩, ⟨.response, key, amount⟩] }]
        appInvoked := true }

/-- C4: below the transaction-items limit, a repeat call with the same
non-empty key and amount returns the recorded result without re-invoking the
app and leaves the stored transactions unchanged; the same key with a
different amount yields a uniqueness conflict without side effects; an empty
key is invalid without invoking the app; a novel non-empty key appends
exactly one transaction carrying that key, with exactly one request and one
response event, and invokes the app. -/
theorem transaction_initialize_idempotency (limit : ℕ) (label : String)
    (txns : List TransactionRec) (key : String) (amount : ℚ) (appResult : String)
    (hlim : txns.length < limit) :
    (key = "" →
        transaction_initialize_mutation limit label txns key amount appResult =
          { outcome := .invalidError "idempotencyKey"
              "The idempotency key cannot be empty."
            transactions := txns
            appInvoked := false }) ∧
      (∀ t, txns.find? (fun t => t.idempotencyKey == key) = some t → key ≠ "" →
        (t.amountValue = amount →
          transaction_initialize_mutation limit label txns key amount appResult =
            { outcome := .success t.result, transactions := txns
              appInvoked := false }) ∧
        (t.amountValue ≠ amount →
          transaction_initialize_mutation limit label txns key amount appResult =
            { outcome := .uniqueError "idempotencyKey", transactions := txns
              appInvoked := false })) ∧
      (key ≠ "" → txns.find? (fun t => t.idempotencyKey == key) = none →
        transaction_initialize_mutation limit label txns key amount appResult =
          { outcome := .success appResult
            transactions := txns ++
              [{ idempotencyKey := key, amountValue := amount, result := appResult
                 events := [⟨.request, key, amount⟩, ⟨.response, key, amount⟩] }]
            appInvoked := true } ∧
        ((transaction_initialize_mutation limit label txns key amount
              appResult).transactions.filter
            (fun t => t.idempotencyKey == key)).length = 1 ∧
        ((transaction_initialize_mutation limit label txns key amount
            appResult).transactions.length = txns.length + 1)) := by
  have hnot : ¬ limit ≤ txns.length := by omega
  refine ⟨?_, ?_, ?_⟩
  · intro hk
    rw [transaction_initialize_mutation, if_neg hnot, if_pos hk]
  · intro t hfind hk
    constructor
    · intro hamt
      rw [transaction_initialize_mutation, if_neg hnot, if_neg hk, hfind]
      dsimp only
      rw [if_pos hamt]
    · intro hamt
      rw [transaction_initialize_mutation, if_neg hnot, if_neg hk, hfind]
      dsimp only
      rw [if_neg hamt]
  · intro hk hfind
    have heq : transaction_initialize_mutation limit label txns key amount appResult =
        { outcome := .success appResult
          transactions := txns ++
            [{ idempotencyKey := key, amountValue := amount, result := appResult
               events := [⟨.request, key, amount⟩, ⟨.response, key, amount⟩] }]
          appInvoked := true } := by
      rw [transaction_initialize_mutation, if_neg hnot, if_neg hk, hfind]
    refine ⟨heq, ?_, ?_⟩
    · rw [heq]
      have hfilter : txns.filter (fun t => t.idempotencyKey == key) = [] := by
        rw [List.filter_eq_nil_iff]
        intro t ht
        have := List.find?_eq_none.mp hfind t ht
        simpa using this
      simp [List.filter_append, hfilter]
    · rw [heq]
      simp

/-- C4 witness: with limit 100 and one stored transaction with key "ABC" and
amount 10, a repeat call with key "ABC" and amount 10 returns the recorded
result "ok" without invoking the app and leaves the store unchanged. -/
theorem transaction_initialize_idempotency_witness :
    ([({ idempotencyKey := "ABC", amountValue := 10, result := "ok",
          events := [⟨.request, "ABC", 10⟩, ⟨.response, "ABC", 10⟩] } :
        TransactionRec)].length < 100) ∧
      transaction_initialize_mutation 100 "Checkout"
          [{ idempotencyKey := "ABC", amountValue := 10, result := "ok",
             events := [⟨.request, "ABC", 10⟩, ⟨.response, "ABC", 10⟩] }]
          "ABC" 10 "fresh" =
        { outcome := .success "ok"
          transactions :=
            [{ idempotencyKey := "ABC", amountValue := 10, result := "ok",
               events := [⟨.request, "ABC", 10⟩, ⟨.response, "ABC", 10⟩] }]
          appInvoked := false } := by
  refine ⟨by norm_num, ?_⟩
  exact ((transaction_initialize_idempotency 100 "Checkout"
      [{ idempotencyKey := "ABC", amountValue := 10, result := "ok",
         events := [⟨.request, "ABC", 10⟩, ⟨.response, "ABC", 10⟩] }]
      "ABC" 10 "fresh" (by norm_num)).2.1
    { idempotencyKey := "ABC", amountValue := 10, result := "ok",
      events := [⟨.request, "ABC", 10⟩, ⟨.response, "ABC", 10⟩] }
    (by rfl) (by simp)).1 rfl

/-- C7: a source object that already carries as many transactions as the
configured limit rejects any `transactionInitialize` call with an INVALID
error naming the limit, creates no transaction and never invokes the app. -/
theorem transaction_initialize_limit (limit : ℕ) (label : String)
    (txns : List TransactionRec) (key : String) (amount : ℚ) (appResult : String)
    (hlim : txns.length = limit) :
    transaction_initialize_mutation limit label txns key amount appResult =
      { outcome := .invalidError "id"
          (label ++ " transactions limit of " ++ toString limit ++ " reached.")
        transactions := txns
        appInvoked := false } := by
  rw [transaction_initialize_mutation, if_pos (by omega)]

/-- C7 witness: at limit 2 with two stored transactions, a call is rejected
with the limit-naming message, the store is unchanged and the app is not
invoked. -/
theorem transaction_initialize_limit_witness :
    ([({ idempotencyKey := "A", amountValue := 1, result := "r1", events := [] } :
          TransactionRec),
        { idempotencyKey := "B", amountValue := 2, result := "r2",
          events := [] }].length = 2) ∧
      transaction_initialize_mutation 2 "Checkout"
          [{ idempotencyKey := "A", amountValue := 1, result := "r1", events := [] },
           { idempotencyKey := "B", amountValue := 2, result := "r2", events := [] }]
          "C" 3 "fresh" =
        { outcome := .invalidError "id" "Checkout transactions limit of 2 reached."
          transactions :=
            [{ idempotencyKey := "A", amountValue := 1, result := "r1", events := [] },
             { idempotencyKey := "B", amountValue := 2, result := "r2", events := [] }]
          appInvoked := false } := by
  refine ⟨rfl, ?_⟩
  exact (transaction_initialize_limit 2 "Checkout"
      [{ idempotencyKey := "A", amountValue := 1, result := "r1", events := [] },
       { idempotencyKey := "B", amountValue := 2, result := "r2", events := [] }]
      "C" 3 "fresh" rfl).trans (by rfl)

/-!
Legacy payment gateway orchestration (`saleor/payment/gateway.py`).
-/

/-- `TransactionAction` values used by payment action requests. -/
inductive TransactionAction where
  | charge
  | refund
  | void
deriving DecidableEq, Repr

/-- A raised `PaymentError`, carrying its message. -/
structure PaymentErr where
  message : String
deriving DecidableEq, Repr

/-- The slice of `TransactionItem` consulted by the action-request helpers. -/
structure TransactionItemRec where
  authorizedValue : ℚ
  chargedValue : ℚ
deriving DecidableEq, Repr

/-- The slice of the plugins manager `gateway.py` consults for action
requests: `is_event_active_for_any_plugin(event, channel_slug=...)`. -/
structure PluginsManager where
  isEventActiveForAnyPlugin : String → String → Bool

/-- The `TransactionActionData` payload handed to the dispatched event. -/
structure TransactionActionData where
  transaction : TransactionItemRec
  actionType : TransactionAction
  actionValue : Option ℚ
deriving DecidableEq, Repr

/-- `_request_payment_action`: builds the payload, raises a `PaymentError`
when no app or plugin has the `transaction_action_request` event active for
the channel, and otherwise dispatches the payload exactly once (the `.ok`
list holds the dispatched payloads in order). -/
def request_payment_action (transaction : TransactionItemRec)
    (manager : PluginsManager) (actionType : TransactionAction)
    (actionValue : Option ℚ) (channelSlug : String) :
    Except PaymentErr (List TransactionActionData) :=
  let paymentData : TransactionActionData := ⟨transaction, actionType, actionValue⟩
  if manager.isEventActiveForAnyPlugin "transaction_action_request" channelSlug then
    .ok [paymentData]
  else
    .error ⟨"No app or plugin is configured to handle payment action requests."⟩

/-- `request_charge_action`: a missing charge value defaults to the
transaction's authorized value (the order-event bookkeeping that follows a
successful dispatch has no observable effect on this contract). -/
def request_charge_action (transaction : TransactionItemRec)
    (manager : PluginsManager) (chargeValue : Option ℚ) (channelSlug : String) :
    Except PaymentErr (List TransactionActionData) :=
  let v := chargeValue.getD transaction.authorizedValue
  request_payment_action transaction manager .charge (some v) channelSlug

/-- `request_refund_action`: a missing refund value defaults to the
transaction's charged value. -/
def request_refund_action (transaction : TransactionItemRec)
    (manager : PluginsManager) (refundValue : Option ℚ) (channelSlug : String) :
    Except PaymentErr (List TransactionActionData) :=
  let v := refundValue.getD transaction.chargedValue
  request_payment_action transaction manager .refund (some v) channelSlug

/-- `request_void_action`: dispatches a void with no action value. -/
def request_void_action (transaction : TransactionItemRec)
    (manager : PluginsManager) (channelSlug : String) :
    Except PaymentErr (List TransactionActionData) :=
  request_payment_action transaction manager .void none channelSlug

/-- C6: when no plugin or app has `transaction_action_request` active for the
channel, each of the charge, refund and void request helpers fails with
exactly the configured `PaymentError` and dispatches nothing; when a handler
is active, each dispatches its payload exactly once. -/
theorem payment_action_requires_active_handler
    (transaction : TransactionItemRec) (manager : PluginsManager)
    (value : Option ℚ) (channelSlug : String) :
    (manager.isEventActiveForAnyPlugin "transaction_action_request" channelSlug
          = false →
        request_charge_action transaction manager value channelSlug =
          .error
            ⟨"No app or plugin is configured to handle payment action requests."⟩ ∧
        request_refund_action transaction manager value channelSlug =
          .error
            ⟨"No app or plugin is configured to handle payment action requests."⟩ ∧
        request_void_action transaction manager channelSlug =
          .error
            ⟨"No app or plugin is configured to handle payment action requests."⟩) ∧
      (manager.isEventActiveForAnyPlugin "transaction_action_request" channelSlug
          = true →
        request_charge_action transaction manager value channelSlug =
          .ok [⟨transaction, .charge, some (value.getD transaction.authorizedValue)⟩] ∧
        request_refund_action transaction manager value channelSlug =
          .ok [⟨transaction, .refund, some (value.getD transaction.chargedValue)⟩] ∧
        request_void_action transaction manager channelSlug =
          .ok [⟨transaction, .void, none⟩]) := by
  constructor
  · intro h
    refine ⟨?_, ?_, ?_⟩ <;>
      simp [request_charge_action, request_refund_action, request_void_action,
        request_payment_action, h]
  · intro h
    refine ⟨?_, ?_, ?_⟩ <;>
      simp [request_charge_action, request_refund_action, request_void_action,
        request_payment_action, h]

/-- C6 witness: with no active handler the charge request fails with the
configured message; with an active handler it dispatches exactly once. -/
theorem payment_action_requires_active_handler_witness :
    (PluginsManager.mk (fun _ _ => false)).isEventActiveForAnyPlugin
        "transaction_action_request" "main" = false ∧
      request_charge_action ⟨30, 0⟩ (PluginsManager.mk (fun _ _ => false))
          none "main" =
        .error
          ⟨"No app or plugin is configured to handle payment action requests."⟩ ∧
      request_void_action ⟨30, 0⟩ (PluginsManager.mk (fun _ _ => true)) "main" =
        .ok [⟨⟨30, 0⟩, .void, none⟩] := by
  refine ⟨rfl, ?_, ?_⟩
  · exact ((payment_action_requires_active_handler ⟨30, 0⟩
      (PluginsManager.mk (fun _ _ => false)) none "main").1 rfl).1
  · exact ((payment_action_requires_active_handler ⟨30, 0⟩
      (PluginsManager.mk (fun _ _ => true)) none "main").2 rfl).2.2

/-- Exceptions the legacy gateway fetch path catches: a failed response
validation (`GatewayError`) or a gateway-raised `PaymentError`, each carrying
the internal detail that is logged but never surfaced. -/
inductive GatewayExc where
  | gatewayError (detail : String)
  | paymentError (detail : String)
deriving DecidableEq, Repr

/-- The generic caller-facing message `ERROR_MSG` from `gateway.py`. -/
def ERROR_MSG : String := "Oops! Something went wrong."

/-- The generic transaction failure message from `gateway.py`. -/
def GENERIC_TRANSACTION_ERROR : String := "Transaction was unsuccessful."

/-- `_fetch_gateway_response`: runs the gateway call (`call` is its outcome,
`.error` when it raises) and validates the response; on a `GatewayError` or
`PaymentError` the response is discarded and the error is the generic
`ERROR_MSG`; otherwise the validated response is returned with no error. -/
def fetch_gateway_response {α : Type} (call : Except GatewayExc α)
    (validate : α → Except GatewayExc Unit) : Option α × Option String :=
  match call with
  | .error _ => (none, some ERROR_MSG)
  | .ok r =>
    match validate r with
    | .error _ => (none, some ERROR_MSG)
    | .ok _ => (some r, none)

/-- C8: a gateway call that raises, or a response that fails validation,
yields a discarded response and exactly the generic "Oops! Something went
wrong." error, independently of the internal exception detail; the surfaced
error is never anything but absent or that generic message. -/
theorem fetch_gateway_response_generic_error {α : Type}
    (call : Except GatewayExc α) (validate : α → Except GatewayExc Unit) :
    (∀ e, call = .error e →
        fetch_gateway_response call validate = (none, some ERROR_MSG)) ∧
      (∀ r e, call = .ok r → validate r = .error e →
        fetch_gateway_response call validate = (none, some ERROR_MSG)) ∧
      ((fetch_gateway_response call validate).2 = none ∨
        (fetch_gateway_response call validate).2 = some ERROR_MSG) := by
  refine ⟨?_, ?_, ?_⟩
  · intro e he
    rw [he]
    rfl
  · intro r e hr hv
    rw [hr]
    simp only [fetch_gateway_response]
    rw [hv]
  · rcases call with e | r
    · exact Or.inr rfl
    · simp only [fetch_gateway_response]
      rcases hv : validate r with e | u
      · exact Or.inr rfl
      · exact Or.inl rfl

/-- C8 witness: a gateway raising a `PaymentError` with a secret internal
detail surfaces only the generic message, with the response discarded. -/
theorem fetch_gateway_response_generic_error_witness :
    fetch_gateway_response
        (Except.error (GatewayExc.paymentError "internal gateway detail") :
          Except GatewayExc Bool)
        (fun _ => .ok ()) = (none, some "Oops! Something went wrong.") := by
  exact ((fetch_gateway_response_generic_error
      (Except.error (GatewayExc.paymentError "internal gateway detail") :
        Except GatewayExc Bool)
      (fun _ => .ok ())).1
    (.paymentError "internal gateway detail") rfl).trans (by rfl)

/-- `TransactionKind` values used on the legacy `Transaction` rows. -/
inductive TransactionKind where
  | auth
  | capture
  | refund
  | void
  | external
  | actionToConfirm
  | refundOngoing
deriving DecidableEq, Repr

/-- The string value of a transaction kind, as interpolated into the
"Cannot find successful ... transaction." message. -/
def TransactionKind.str : TransactionKind → String
  | .auth => "auth"
  | .capture => "capture"
  | .refund => "refund"
  | .void => "void"
  | .external => "external"
  | .actionToConfirm => "action_to_confirm"
  | .refundOngoing => "refund_ongoing"

/-- A legacy `Transaction` row as read by the token lookup. -/
structure LegacyTransaction where
  kind : TransactionKind
  isSuccess : Bool
  token : String
deriving DecidableEq, Repr

/-- The slice of `Payment` the refund path reads.  `isManual` mirrors
`payment.is_manual()` and `canRefund` mirrors `payment.can_refund()`. -/
structure Payment where
  capturedAmount : ℚ
  canRefund : Bool
  isManual : Bool
  transactions : List LegacyTransaction
deriving DecidableEq, Repr

/-- A legacy gateway response as far as the refund bookkeeping reads it. -/
structure GatewayResponse where
  isSuccess : Bool
  error : Option String
deriving DecidableEq, Repr

/-- `_get_past_transaction_token`: the token of the last successful
transaction of the given kind, or a `PaymentError` naming the kind. -/
def get_past_transaction_token (payment : Payment) (kind : TransactionKind) :
    Except PaymentErr String :=
  match (payment.transactions.filter
      (fun t => t.kind == kind && t.isSuccess)).getLast? with
  | none => .error ⟨"Cannot find successful " ++ kind.str ++ " transaction."⟩
  | some t => .ok t.token

/-- `_validate_refund_amount`: a non-positive amount or one exceeding the
captured amount raises a `PaymentError`. -/
def validate_refund_amount (payment : Payment) (amount : Rat) :
    Option PaymentErr :=
  if amount <= 0 then some ⟨"Amount should be a positive number."⟩
  else if payment.capturedAmount < amount then
    some ⟨"Cannot refund more than captured."⟩
  else none

/-- Result of the `refund` facade: the surfaced `PaymentError` message if one
is raised, whether the external gateway was contacted, and how many
`Transaction` rows were created. -/
structure RefundOutcome where
  error : Option String
  gatewayCalled : Bool
  transactionsCreated : Nat
deriving DecidableEq, Repr

/-- `refund` from `gateway.py`: the amount defaults to the payment's captured
amount and is validated, then `can_refund` is checked, the past transaction
token is looked up (kind `EXTERNAL` for manual payments, else `CAPTURE`); a
manual payment is just marked refunded with one successful transaction and no
gateway call; otherwise the gateway is contacted through
`_fetch_gateway_response`.  The post-gateway bookkeeping
(`get_already_processed_transaction_or_create_new_transaction` and
`raise_payment_error`, whose implementations are outside the excerpt) is
modelled from the spec: one transaction row records the outcome and an
unsuccessful outcome surfaces the recorded error, the generic transaction
message when none is recorded. -/
def refund (payment : Payment) (amount : Option Rat)
    (gatewayCall : Except GatewayExc GatewayResponse)
    (validate : GatewayResponse -> Except GatewayExc Unit) : RefundOutcome :=
  let amt := amount.getD payment.capturedAmount
  match validate_refund_amount payment amt with
  | some e => { error := some e.message, gatewayCalled := false
                transactionsCreated := 0 }
  | none =>
    if !payment.canRefund then
      { error := some "This payment cannot be refunded.", gatewayCalled := false
        transactionsCreated := 0 }
    else
      let kind := if payment.isManual then TransactionKind.external
        else TransactionKind.capture
      match get_past_transaction_token payment kind with
      | .error e => { error := some e.message, gatewayCalled := false
                      transactionsCreated := 0 }
      | .ok _ =>
        if payment.isManual then
          { error := none, gatewayCalled := false, transactionsCreated := 1 }
        else
          match fetch_gateway_response gatewayCall validate with
          | (some r, _) =>
            if r.isSuccess then
              { error := none, gatewayCalled := true, transactionsCreated := 1 }
            else
              { error := some (r.error.getD GENERIC_TRANSACTION_ERROR)
                gatewayCalled := true, transactionsCreated := 1 }
          | (none, err) =>
            { error := some (err.getD GENERIC_TRANSACTION_ERROR)
              gatewayCalled := true, transactionsCreated := 1 }

/-- C10: the refund amount defaults to the payment's captured amount, and an
amount that is not strictly positive or exceeds the captured amount raises
the corresponding `PaymentError` before any gateway contact, with no
transaction created. -/
theorem refund_validates_amount_first (payment : Payment)
    (gatewayCall : Except GatewayExc GatewayResponse)
    (validate : GatewayResponse -> Except GatewayExc Unit) :
    (refund payment none gatewayCall validate =
        refund payment (some payment.capturedAmount) gatewayCall validate) /\
      (forall a : Rat, a <= 0 ->
        refund payment (some a) gatewayCall validate =
          { error := some "Amount should be a positive number."
            gatewayCalled := false, transactionsCreated := 0 }) /\
      (forall a : Rat, 0 < a -> payment.capturedAmount < a ->
        refund payment (some a) gatewayCall validate =
          { error := some "Cannot refund more than captured."
            gatewayCalled := false, transactionsCreated := 0 }) := by
  refine ⟨rfl, ?_, ?_⟩
  · intro a ha
    rw [refund]
    simp only [Option.getD_some, validate_refund_amount, if_pos ha]
  · intro a ha hcap
    rw [refund]
    simp only [Option.getD_some, validate_refund_amount,
      if_neg (not_le.mpr ha), if_pos hcap]

/-- C10 witness: a payment with captured amount 10 rejects a refund of -1 as
non-positive and a refund of 20 as exceeding the captured amount, both
without contacting the gateway or creating a transaction. -/
theorem refund_validates_amount_first_witness :
    ((-1 : Rat) <= 0) /\
      (0 < (20 : Rat) /\
        (Payment.mk 10 true false []).capturedAmount < 20) /\
      refund (Payment.mk 10 true false []) (some (-1))
          (.ok (GatewayResponse.mk true none)) (fun _ => .ok ()) =
        { error := some "Amount should be a positive number."
          gatewayCalled := false, transactionsCreated := 0 } /\
      refund (Payment.mk 10 true false []) (some 20)
          (.ok (GatewayResponse.mk true none)) (fun _ => .ok ()) =
        { error := some "Cannot refund more than captured."
          gatewayCalled := false, transactionsCreated := 0 } := by
  refine ⟨by norm_num, ⟨by norm_num, by norm_num⟩, ?_, ?_⟩
  · exact (refund_validates_amount_first (Payment.mk 10 true false [])
      (.ok (GatewayResponse.mk true none)) (fun _ => .ok ())).2.1 (-1) (by norm_num)
  · exact (refund_validates_amount_first (Payment.mk 10 true false [])
      (.ok (GatewayResponse.mk true none)) (fun _ => .ok ())).2.2 20 (by norm_num)
        (by norm_num)

/-!
Thumbnail handler (`saleor/thumbnail/views.py`).
-/

/-- Per-type model data from `TYPE_TO_MODEL_DATA_MAPPING`: the instance field
holding the source image and the thumbnail relation field used for lookups. -/
structure ModelData where
  imageField : String
  thumbnailField : String
deriving DecidableEq, Repr

def ICON_TYPE_TO_MODEL_DATA_MAPPING : List (String × ModelData) :=
  [("App", ⟨"brand_logo_default", "app"⟩),
   ("AppInstallation", ⟨"brand_logo_default", "app_installation"⟩)]

def TYPE_TO_MODEL_DATA_MAPPING : List (String × ModelData) :=
  [("User", ⟨"avatar", "user"⟩),
   ("Category", ⟨"background_image", "category"⟩),
   ("Collection", ⟨"background_image", "collection"⟩),
   ("ProductMedia", ⟨"image", "product_media"⟩)] ++
    ICON_TYPE_TO_MODEL_DATA_MAPPING

/-- Model data for an object type, when the type is in the allow-list. -/
def lookup_model_data (objectType : String) : Option ModelData :=
  (TYPE_TO_MODEL_DATA_MAPPING.find? (fun p => p.1 == objectType)).map (fun p => p.2)

/-- Whether the type is one of the icon types. -/
def is_icon_type (objectType : String) : Bool :=
  ICON_TYPE_TO_MODEL_DATA_MAPPING.any (fun p => p.1 == objectType)

/-- A stored `Thumbnail` row: which relation field and primary key it is
attached through, its size bucket, its format and its storage URL. -/
structure ThumbnailRec where
  ownerField : String
  ownerPk : String
  size : Nat
  format : Option String
  url : String
deriving DecidableEq, Repr

/-- An instance's image field; the empty string models a missing image
(`bool(image)` false). -/
structure InstanceRec where
  image : String
deriving DecidableEq, Repr

/-- The environment the view runs against.  The format allow-lists, the
available size buckets and the storage/mimetype helpers are outside the
excerpt, so they are parameters. -/
structure ThumbnailEnv where
  allowedFormats : List String
  allowedIconFormats : List String
  thumbnailSizes : List Nat
  thumbnails : List ThumbnailRec
  instances : String → String → Option InstanceRec
  storageUrl : String → String
  mimetype : String → String

/-- Lower-casing of a format string (`str.lower()` restricted to the ASCII
format names the view compares against). -/
def lower_string (s : String) : String :=
  String.mk (s.data.map Char.toLower)

/-- `format = format.lower() if format else None`: an absent or empty format
becomes `none`, otherwise it is lower-cased. -/
def normalize_format (format? : Option String) : Option String :=
  match format? with
  | some f => if f = "" then none else some (lower_string f)
  | none => none

/-- Modelled from the spec: `get_thumbnail_size` snaps the requested size to
the nearest available bucket (first bucket on ties); a non-positive request
or an empty bucket list raises `ValueError` (`none` here). -/
def get_thumbnail_size (sizes : List Nat) (requested : Int) : Option Nat :=
  if requested ≤ 0 then none
  else
    sizes.foldl
      (fun acc s =>
        match acc with
        | none => some s
        | some b =>
          if ((s : Int) - requested).natAbs < ((b : Int) - requested).natAbs then
            some s
          else acc)
      none

/-- Modelled from the spec: `prepare_thumbnail_file_name` derives the stored
file name from the source image name, the size bucket and the format. -/
def prepare_thumbnail_file_name (name : String) (size : Nat)
    (fmt : Option String) : String :=
  name ++ "_thumbnail_" ++ toString size ++
    (match fmt with
     | some f => "." ++ f
     | none => "")

/-- The HTTP responses `handle_thumbnail` produces: a 404 with a message, a
temporary redirect (`HttpResponseRedirect`, no explicit content type) or a
permanent redirect (`HttpResponsePermanentRedirect`) with its content type. -/
inductive ThumbResponse where
  | notFound (msg : String)
  | redirect (url : String) (contentType : Option String)
  | permanentRedirect (url : String) (contentType : Option String)
deriving DecidableEq, Repr

/-- The content type explicitly set on a response. -/
def response_content_type : ThumbResponse → Option String
  | .notFound _ => none
  | .redirect _ ct => ct
  | .permanentRedirect _ ct => ct

/-- `handle_thumbnail`: `decoded` is the result of `from_global_id_or_error`
(`none` when it raises `GraphQLError`), `sizeParam` the result of `int(size)`
on the size path parameter (`none` when that raises `ValueError`), `format?`
the optional format path parameter.  Returns the response together with the
thumbnail table afterwards. -/
def handle_thumbnail (env : ThumbnailEnv) (decoded : Option (String × String))
    (sizeParam : Option Int) (format? : Option String) :
    ThumbResponse × List ThumbnailRec :=
  match decoded with
  | none => (.notFound "Cannot found instance with the given id.", env.thumbnails)
  | some (objectType, pk) =>
    match lookup_model_data objectType with
    | none => (.notFound "Invalid instance type.", env.thumbnails)
    | some modelData =>
      let fmt := normalize_format format?
      let iconFormatBad := is_icon_type objectType &&
        (match fmt with
         | some f => !(env.allowedIconFormats.contains f)
         | none => false)
      let plainFormatBad := !(is_icon_type objectType) &&
        (match fmt with
         | some f => !(env.allowedFormats.contains f)
         | none => false)
      if iconFormatBad then
        (.notFound "Unsupported icon image format.", env.thumbnails)
      else if plainFormatBad then
        (.notFound "Unsupported image format.", env.thumbnails)
      else
        match sizeParam with
        | none => (.notFound "Invalid size.", env.thumbnails)
        | some sizeReq =>
          match get_thumbnail_size env.thumbnailSizes sizeReq with
          | none => (.notFound "Invalid size.", env.thumbnails)
          | some sizePx =>
            match env.thumbnails.find? (fun t =>
                t.ownerField == modelData.thumbnailField && t.ownerPk == pk &&
                  t.size == sizePx && t.format == fmt) with
            | some thumb => (.redirect thumb.url none, env.thumbnails)
            | none =>
              match env.instances objectType pk with
              | none =>
                (.notFound "Instance with the given id cannot be found.",
                  env.thumbnails)
              | some inst =>
                if inst.image = "" then
                  (.notFound "There is no image for provided instance.",
                    env.thumbnails)
                else
                  let fileName :=
                    prepare_thumbnail_file_name inst.image sizePx fmt
                  let url := env.storageUrl fileName
                  (.permanentRedirect url (some (env.mimetype fileName)),
                    env.thumbnails ++
                      [⟨modelData.thumbnailField, pk, sizePx, fmt, url⟩])

/-- Whether a (normalized) format passes the allow-list check for the given
object type. -/
def format_allowed (env : ThumbnailEnv) (objectType : String)
    (fmt : Option String) : Bool :=
  match fmt with
  | none => true
  | some f =>
    if is_icon_type objectType then env.allowedIconFormats.contains f
    else env.allowedFormats.contains f

/-- C9 (amended): `handle_thumbnail` returns a 404 when the global id cannot
be decoded, the type is not allow-listed, the format is unsupported for the
type, the size is invalid, the instance is missing or it has no image; when a
stored thumbnail exists for the (relation, pk, snapped size, format) tuple it
redirects to that thumbnail's URL with a temporary redirect carrying no
explicit content type and stores nothing; otherwise it generates, persists
and permanently redirects to a new thumbnail with a computed content type. -/
theorem handle_thumbnail_contract (env : ThumbnailEnv)
    (decoded : Option (String × String)) (sizeParam : Option Int)
    (format? : Option String) :
    (decoded = none →
        handle_thumbnail env decoded sizeParam format? =
          (.notFound "Cannot found instance with the given id.", env.thumbnails)) ∧
      (∀ ot pk, decoded = some (ot, pk) → lookup_model_data ot = none →
        handle_thumbnail env decoded sizeParam format? =
          (.notFound "Invalid instance type.", env.thumbnails)) ∧
      (∀ ot pk md f, decoded = some (ot, pk) → lookup_model_data ot = some md →
        normalize_format format? = some f → is_icon_type ot = true →
        env.allowedIconFormats.contains f = false →
        handle_thumbnail env decoded sizeParam format? =
          (.notFound "Unsupported icon image format.", env.thumbnails)) ∧
      (∀ ot pk md f, decoded = some (ot, pk) → lookup_model_data ot = some md →
        normalize_format format? = some f → is_icon_type ot = false →
        env.allowedFormats.contains f = false →
        handle_thumbnail env decoded sizeParam format? =
          (.notFound "Unsupported image format.", env.thumbnails)) ∧
      (∀ ot pk md, decoded = some (ot, pk) → lookup_model_data ot = some md →
        format_allowed env ot (normalize_format format?) = true →
        sizeParam = none →
        handle_thumbnail env decoded sizeParam format? =
          (.notFound "Invalid size.", env.thumbnails)) ∧
      (∀ ot pk md r, decoded = some (ot, pk) → lookup_model_data ot = some md →
        format_allowed env ot (normalize_format format?) = true →
        sizeParam = some r → get_thumbnail_size env.thumbnailSizes r = none →
        handle_thumbnail env decoded sizeParam format? =
          (.notFound "Invalid size.", env.thumbnails)) ∧
      (∀ ot pk md r px thumb, decoded = some (ot, pk) →
        lookup_model_data ot = some md →
        format_allowed env ot (normalize_format format?) = true →
        sizeParam = some r → get_thumbnail_size env.thumbnailSizes r = some px →
        env.thumbnails.find? (fun t =>
            t.ownerField == md.thumbnailField && t.ownerPk == pk &&
              t.size == px && t.format == normalize_format format?) =
          some thumb →
        handle_thumbnail env decoded sizeParam format? =
            (.redirect thumb.url none, env.thumbnails) ∧
          thumb ∈ env.thumbnails ∧
          thumb.ownerField = md.thumbnailField ∧ thumb.ownerPk = pk ∧
          thumb.size = px ∧ thumb.format = normalize_format format?) ∧
      (∀ ot pk md r px, decoded = some (ot, pk) →
        lookup_model_data ot = some md →
        format_allowed env ot (normalize_format format?) = true →
        sizeParam = some r → get_thumbnail_size env.thumbnailSizes r = some px →
        env.thumbnails.find? (fun t =>
            t.ownerField == md.thumbnailField && t.ownerPk == pk &&
              t.size == px && t.format == normalize_format format?) = none →
        env.instances ot pk = none →
        handle_thumbnail env decoded sizeParam format? =
          (.notFound "Instance with the given id cannot be found.",
            env.thumbnails)) ∧
      (∀ ot pk md r px inst, decoded = some (ot, pk) →
        lookup_model_data ot = some md →
        format_allowed env ot (normalize_format format?) = true →
        sizeParam = some r → get_thumbnail_size env.thumbnailSizes r = some px →
        env.thumbnails.find? (fun t =>
            t.ownerField == md.thumbnailField && t.ownerPk == pk &&
              t.size == px && t.format == normalize_format format?) = none →
        env.instances ot pk = some inst →
        (inst.image = "" →
          handle_thumbnail env decoded sizeParam format? =
            (.notFound "There is no image for provided instance.",
              env.thumbnails)) ∧
        (inst.image ≠ "" →
          handle_thumbnail env decoded sizeParam format? =
            (.permanentRedirect
                (env.storageUrl (prepare_thumbnail_file_name inst.image px
                  (normalize_format format?)))
                (some (env.mimetype (prepare_thumbnail_file_name inst.image px
                  (normalize_format format?)))),
              env.thumbnails ++
                [⟨md.thumbnailField, pk, px, normalize_format format?,
                  env.storageUrl (prepare_thumbnail_file_name inst.image px
                    (normalize_format format?))⟩]))) := by
  have hfmtok : ∀ ot, format_allowed env ot (normalize_format format?) = true →
      ((is_icon_type ot &&
        (match normalize_format format? with
         | some f => !(env.allowedIconFormats.contains f)
         | none => false)) = false ∧
       ((!(is_icon_type ot)) &&
        (match normalize_format format? with
         | some f => !(env.allowedFormats.contains f)
         | none => false)) = false) := by
    intro ot hok
    rcases hfmt : normalize_format format? with _ | f
    · simp
    · rw [hfmt] at hok
      unfold format_allowed at hok
      rcases hicon : is_icon_type ot
      · simp only [hicon, if_neg] at hok ⊢
        simp at hok ⊢
        exact hok
      · simp only [hicon] at hok ⊢
        simp at hok ⊢
        exact hok
  refine ⟨?_, ?_, ?_, ?_, ?_, ?_, ?_, ?_, ?_⟩
  · intro h
    rw [h, handle_thumbnail]
  · intro ot pk hdec hlk
    rw [hdec, handle_thumbnail]
    rw [hlk]
  · intro ot pk md f hdec hlk hfmt hicon hbad
    rw [hdec, handle_thumbnail]
    rw [hlk]
    simp only [hfmt, hicon, hbad]
    rfl
  · intro ot pk md f hdec hlk hfmt hicon hbad
    rw [hdec, handle_thumbnail]
    rw [hlk]
    simp only [hfmt, hicon, hbad]
    rfl
  · intro ot pk md hdec hlk hok hsize
    obtain ⟨h1, h2⟩ := hfmtok ot hok
    rw [hdec, handle_thumbnail]
    rw [hlk]
    simp only [h1, h2, hsize]
    rfl
  · intro ot pk md r hdec hlk hok hsize hsnap
    obtain ⟨h1, h2⟩ := hfmtok ot hok
    rw [hdec, handle_thumbnail]
    rw [hlk]
    simp only [h1, h2, hsize, hsnap]
    rfl
  · intro ot pk md r px thumb hdec hlk hok hsize hsnap hfind
    obtain ⟨h1, h2⟩ := hfmtok ot hok
    have hmem := List.mem_of_find?_eq_some hfind
    have hprop := List.find?_some hfind
    simp only [Bool.and_eq_true, beq_iff_eq] at hprop
    refine ⟨?_, hmem, hprop.1.1.1, hprop.1.1.2, hprop.1.2, hprop.2⟩
    rw [hdec, handle_thumbnail]
    rw [hlk]
    simp only [h1, h2, hsize, hsnap, hfind]
    rfl
  · intro ot pk md r px hdec hlk hok hsize hsnap hfind hinst
    obtain ⟨h1, h2⟩ := hfmtok ot hok
    rw [hdec, handle_thumbnail]
    rw [hlk]
    simp only [h1, h2, hsize, hsnap, hfind, hinst]
    rfl
  · intro ot pk md r px inst hdec hlk hok hsize hsnap hfind hinst
    obtain ⟨h1, h2⟩ := hfmtok ot hok
    constructor
    · intro himg
      rw [hdec, handle_thumbnail]
      rw [hlk]
      simp only [h1, h2, hsize, hsnap, hfind, hinst, himg]
      rfl
    · intro himg
      rw [hdec, handle_thumbnail]
      rw [hlk]
      simp only [h1, h2, hsize, hsnap, hfind, hinst, if_neg himg]
      rfl

/-- A small concrete environment: one stored thumbnail for user 7 at size 64
with no format. -/
def sample_thumbnail_env : ThumbnailEnv :=
  { allowedFormats := ["webp"]
    allowedIconFormats := ["ico"]
    thumbnailSizes := [32, 64]
    thumbnails := [⟨"user", "7", 64, none, "stored-url"⟩]
    instances := fun _ _ => some ⟨"avatar.png"⟩
    storageUrl := fun n => "media/" ++ n
    mimetype := fun _ => "image/png" }

/-- C9 counterexample: when a stored thumbnail already exists for the tuple,
the view answers with a plain temporary redirect that sets no content type
(`HttpResponseRedirect(thumbnail.image.url)`), so the claim that every
successful response is a redirect "with a computed content type" fails on
the reuse path. -/
theorem handle_thumbnail_cached_no_content_type_counterexample :
    handle_thumbnail sample_thumbnail_env (some ("User", "7")) (some 64) none =
        (.redirect "stored-url" none, sample_thumbnail_env.thumbnails) ∧
      response_content_type
          (handle_thumbnail sample_thumbnail_env (some ("User", "7"))
            (some 64) none).1 = none ∧
      sample_thumbnail_env.thumbnails.find? (fun t =>
          t.ownerField == "user" && t.ownerPk == "7" &&
            t.size == 64 && t.format == none) =
        some ⟨"user", "7", 64, none, "stored-url"⟩ := by
  exact ⟨rfl, rfl, rfl⟩

/-- C9 witness: generating a fresh thumbnail for user 8 at size 64 persists
exactly one new row and permanently redirects with the computed content
type; the cached path for user 7 redirects to the stored URL without
touching the store. -/
theorem handle_thumbnail_contract_witness :
    handle_thumbnail sample_thumbnail_env (some ("User", "8")) (some 64) none =
        (.permanentRedirect "media/avatar.png_thumbnail_64" (some "image/png"),
          sample_thumbnail_env.thumbnails ++
            [⟨"user", "8", 64, none, "media/avatar.png_thumbnail_64"⟩]) ∧
      handle_thumbnail sample_thumbnail_env (some ("User", "7")) (some 64) none =
        (.redirect "stored-url" none, sample_thumbnail_env.thumbnails) := by
  constructor
  · have h := ((handle_thumbnail_contract sample_thumbnail_env
        (some ("User", "8")) (some 64) none).2.2.2.2.2.2.2.2 "User" "8"
        ⟨"avatar", "user"⟩ 64 64 ⟨"avatar.png"⟩ rfl rfl rfl rfl rfl rfl rfl).2
      (by simp)
    exact h.trans (by rfl)
  · exact ((handle_thumbnail_contract sample_thumbnail_env
        (some ("User", "7")) (some 64) none).2.2.2.2.2.2.1 "User" "7"
        ⟨"avatar", "user"⟩ 64 64 ⟨"user", "7", 64, none, "stored-url"⟩
        rfl rfl rfl rfl rfl rfl).1

end Saleor
